import Mathlib

/-!
Verification of the monarch-money budgeting toolkit core.

Part 1 embeds the debt-payoff projector of `src/debt_payoff.py`
(`project_payoff`): Python floats are modelled as exact rationals, the
`for month in range(1, max_months + 1)` loop with its early `break`
becomes structural recursion over the list `List.range' 1 max_months`.

Part 2 embeds the cash-flow classifier of
`src/monarch_budgeting/analyzer.py` (`CashBudgetAnalyzer`): the pandas
dataframe pipeline becomes list filtering and summation.
-/

namespace Monarch

/-- Result dictionary of `project_payoff` (src/debt_payoff.py lines 114-120):
`timeline` is the list of `(month, balance)` pairs, `months` is
`len(timeline) - 1`, `paid_off` is `balance <= 0` at loop exit. -/
structure PayoffResult where
  timeline : List (Nat × ℚ)
  total_interest : ℚ
  total_paid : ℚ
  months : Nat
  paid_off : Bool
deriving Repr, DecidableEq

/-- The loop body of `project_payoff` (src/debt_payoff.py lines 98-112):
for each month still to process, interest `balance * monthly_rate` is added
to the balance and to `total_interest`, the payment
`min(monthly_payment, balance)` is subtracted from the balance and added to
`total_paid`, `(month, balance)` is appended to the timeline, and the loop
breaks as soon as the balance is `<= 0`.  Returns the final
`(balance, total_interest, total_paid, timeline)`. -/
def payoffGo (monthly_payment monthly_rate : ℚ)
    (balance total_interest total_paid : ℚ) (timeline : List (Nat × ℚ)) :
    List Nat → ℚ × ℚ × ℚ × List (Nat × ℚ)
  | [] => (balance, total_interest, total_paid, timeline)
  | month :: rest =>
    let interest_this_month := balance * monthly_rate
    let balance1 := balance + interest_this_month
    let total_interest1 := total_interest + interest_this_month
    let payment := min monthly_payment balance1
    let balance2 := balance1 - payment
    let total_paid1 := total_paid + payment
    let timeline1 := timeline ++ [(month, balance2)]
    if balance2 ≤ 0 then (balance2, total_interest1, total_paid1, timeline1)
    else payoffGo monthly_payment monthly_rate balance2 total_interest1 total_paid1 timeline1 rest

/-- `project_payoff(total_debt, monthly_payment, annual_interest_rate, max_months)`
from src/debt_payoff.py lines 73-120.  `monthly_interest_rate` is
`annual_interest_rate / 12`, the state starts at
`balance = total_debt`, `timeline = [(0, balance)]`,
`total_interest = total_paid = 0`, and the loop runs over
`range(1, max_months + 1)`. -/
def project_payoff (total_debt monthly_payment annual_interest_rate : ℚ)
    (max_months : Nat) : PayoffResult :=
  let monthly_interest_rate := annual_interest_rate / 12
  let r := payoffGo monthly_payment monthly_interest_rate total_debt 0 0
    [(0, total_debt)] (List.range' 1 max_months)
  { timeline := r.2.2.2
    total_interest := r.2.1
    total_paid := r.2.2.1
    months := r.2.2.2.length - 1
    paid_off := decide (r.1 ≤ 0) }

/-- Modelled from the spec's recurrence (spec.md section 4.2): the balance
after `n` simulated months.  Each month the interest `balance * monthly_rate`
is added and then the payment `min(monthly_payment, balance)` is subtracted. -/
def specBal (total_debt monthly_payment monthly_rate : ℚ) : Nat → ℚ
  | 0 => total_debt
  | n + 1 =>
    let b := specBal total_debt monthly_payment monthly_rate n
    let b1 := b + b * monthly_rate
    b1 - min monthly_payment b1

/-- Modelled from the spec's recurrence: total interest accrued after `n`
simulated months. -/
def specInterest (total_debt monthly_payment monthly_rate : ℚ) : Nat → ℚ
  | 0 => 0
  | n + 1 => specInterest total_debt monthly_payment monthly_rate n +
      specBal total_debt monthly_payment monthly_rate n * monthly_rate

/-- Modelled from the spec's recurrence: total paid after `n` simulated
months. -/
def specPaid (total_debt monthly_payment monthly_rate : ℚ) : Nat → ℚ
  | 0 => 0
  | n + 1 =>
    let b := specBal total_debt monthly_payment monthly_rate n
    specPaid total_debt monthly_payment monthly_rate n +
      min monthly_payment (b + b * monthly_rate)

/-- The timeline the spec's recurrence predicts after stopping at month `n`:
`[(0, bal 0), (1, bal 1), ..., (n, bal n)]`. -/
def specTimeline (total_debt monthly_payment monthly_rate : ℚ) (n : Nat) :
    List (Nat × ℚ) :=
  (List.range (n + 1)).map
    (fun k => (k, specBal total_debt monthly_payment monthly_rate k))

/-- `stopMonth d mp r n m` is the month at which the simulation loop exits
when it is about to run months `n+1, ..., n+m` with the balance of month `n`
still positive: the first month among these whose end-of-month balance is
`<= 0`, or `n + m` if there is none. -/
def stopMonth (total_debt monthly_payment monthly_rate : ℚ) : Nat → Nat → Nat
  | n, 0 => n
  | n, m + 1 =>
    if specBal total_debt monthly_payment monthly_rate (n + 1) ≤ 0 then n + 1
    else stopMonth total_debt monthly_payment monthly_rate (n + 1) m

/-!
Part 2: the cash-flow classifier of `src/monarch_budgeting/analyzer.py`.

Python's loosely typed dict records are embedded as follows: a field read
with `x.get('k')` that may be absent becomes an `Option`; a field that may
itself not be a dict (`isinstance(x, dict)` checks in `_prepare_dataframe`)
becomes an outer `Option` around the record.  Amounts are exact rationals.
-/

/-- An account record.  `id` is `acc.get('id')`, `typeName` is
`acc.get('type', {}).get('name')` (src/monarch_budgeting/analyzer.py lines
459-468). -/
structure Account where
  id : Option String
  typeName : Option String
deriving Repr, DecidableEq

/-- A category record (src/monarch_budgeting/budget_data.py lines 20-46);
only the fields the classifier reads are kept. -/
structure Category where
  id : String
  name : String
  system_category : Option String
deriving Repr, DecidableEq

/-- `Category.is_cc_payment` (src/monarch_budgeting/budget_data.py lines
43-46): `self.system_category == 'credit_card_payment'`. -/
def Category.is_cc_payment (c : Category) : Bool :=
  c.system_category == some ("credit_card_payment")

/-- The `category` dict nested in a transaction: `_prepare_dataframe` reads
`x.get('id')` and `x.get('name', 'Uncategorized')` from it. -/
structure TxCategory where
  id : Option String
  name : Option String
deriving Repr, DecidableEq

/-- The `account` dict nested in a transaction: `_prepare_dataframe` reads
`x.get('id')` from it. -/
structure TxAccount where
  id : Option String
deriving Repr, DecidableEq

/-- A transaction record.  The `account` and `category` fields hold `none`
when the raw field is not a dict (the `isinstance(x, dict)` branches of
`_prepare_dataframe`).  Dates are modelled as integers, comparisons on them
mirror the pandas timestamp comparisons of the date filter. -/
structure Transaction where
  amount : ℚ
  date : Int
  account : Option TxAccount
  category : Option TxCategory
deriving Repr, DecidableEq

/-- `df['account_id']` (src/monarch_budgeting/analyzer.py lines 492-494):
`x.get('id') if isinstance(x, dict) else None`. -/
def Transaction.account_id (t : Transaction) : Option String :=
  t.account.bind (fun a => a.id)

/-- `df['category_id']` (src/monarch_budgeting/analyzer.py lines 495-497):
`x.get('id') if isinstance(x, dict) else None`. -/
def Transaction.category_id (t : Transaction) : Option String :=
  t.category.bind (fun c => c.id)

/-- `df['category_name']` (src/monarch_budgeting/analyzer.py lines 498-500):
`x.get('name', 'Uncategorized') if isinstance(x, dict) else 'Uncategorized'`. -/
def Transaction.category_name (t : Transaction) : String :=
  match t.category with
  | some c => c.name.getD ("Uncategorized")
  | none => ("Uncategorized")

/-- `CashBudgetAnalyzer.EXCLUDED_CATEGORIES`
(src/monarch_budgeting/analyzer.py line 440). -/
def EXCLUDED_CATEGORIES : List String := [("Dividends & Capital Gains")]

/-- `CashBudgetAnalyzer._is_excluded_category`
(src/monarch_budgeting/analyzer.py lines 513-515). -/
def isExcludedCategory (category_name : String) : Bool :=
  EXCLUDED_CATEGORIES.contains category_name

/-- The analyzer's constructor inputs (src/monarch_budgeting/analyzer.py
lines 442-456).  `categories` is the id-keyed dict of `Category` objects;
a Python dict iterates in insertion order, so it is kept as an association
list. -/
structure CashBudgetAnalyzer where
  transactions : List Transaction
  accounts : List Account
  categories : List (String × Category)
deriving Repr, DecidableEq

/-- `self.cc_account_ids` (src/monarch_budgeting/analyzer.py lines 459-462):
ids of the accounts whose type name is 'credit'.  `acc.get('id')` may be
`None`, and Python happily puts `None` in the set, so the elements are
`Option String`. -/
def CashBudgetAnalyzer.cc_account_ids (A : CashBudgetAnalyzer) :
    List (Option String) :=
  (A.accounts.filter (fun a => a.typeName == some ("credit"))).map
    (fun a => a.id)

/-- `self.cc_payment_category_id` (src/monarch_budgeting/analyzer.py lines
470-475): the id of the first category flagged `is_cc_payment`, `None` when
there is none. -/
def CashBudgetAnalyzer.cc_payment_category_id (A : CashBudgetAnalyzer) :
    Option String :=
  (A.categories.find? (fun p => p.2.is_cc_payment)).map (fun p => p.1)

/-- `df['is_cc_account']` (src/monarch_budgeting/analyzer.py line 506):
`df['account_id'].isin(self.cc_account_ids)`; pandas `isin` on an
object-dtype column matches `None` entries against a `None` in the value
set, so this is plain membership of `Option String`. -/
def CashBudgetAnalyzer.is_cc_account (A : CashBudgetAnalyzer)
    (t : Transaction) : Bool :=
  A.cc_account_ids.contains t.account_id

/-- `df['is_cc_payment']` (src/monarch_budgeting/analyzer.py line 509):
`df['category_id'] == self.cc_payment_category_id`.  pandas'
`comparison_op` special-cases a null right-hand scalar: an `==` comparison
of a column against `None` returns all-`False` before any elementwise
object comparison is attempted.  So when no CC-payment category exists
(`cc_payment_category_id` is `None`) nothing is flagged; otherwise the
column is compared elementwise against the id string, and a null
`category_id` entry never equals it. -/
def CashBudgetAnalyzer.is_cc_payment (A : CashBudgetAnalyzer)
    (t : Transaction) : Bool :=
  match A.cc_payment_category_id with
  | none => false
  | some cid => t.category_id == some cid

/-- The result dict of `calculate_top_level_metrics`
(src/monarch_budgeting/analyzer.py lines 576-584). -/
structure TopLevelMetrics where
  total_income : ℚ
  total_expenses : ℚ
  cc_expenses : ℚ
  cash_expenses : ℚ
  cc_payments : ℚ
  true_cash_remaining : ℚ
  total_new_cc_spending : ℚ
deriving Repr, DecidableEq

/-- `TopLevelMetrics.calculate` (src/monarch_budgeting/budget_data.py lines
79-97): derives `cash_expenses`, `true_cash_remaining` and
`total_new_cc_spending` from the four base values. -/
def TopLevelMetrics.calculate
    (total_income total_expenses cc_expenses cc_payments : ℚ) :
    TopLevelMetrics :=
  let cash_expenses := total_expenses - cc_expenses
  let true_cash_remaining := total_income - cash_expenses - cc_payments
  { total_income := total_income
    total_expenses := total_expenses
    cc_expenses := cc_expenses
    cash_expenses := cash_expenses
    cc_payments := cc_payments
    true_cash_remaining := true_cash_remaining
    total_new_cc_spending := cc_expenses }

/-- Sum of the `amount` column of a dataframe slice. -/
def amountSum (l : List Transaction) : ℚ := (l.map (fun t => t.amount)).sum

/-- The date-range filter of `calculate_top_level_metrics`
(src/monarch_budgeting/analyzer.py lines 545-549). -/
def dateFilter (start_date end_date : Option Int) (txs : List Transaction) :
    List Transaction :=
  let df := match start_date with
    | none => txs
    | some s => txs.filter (fun t => decide (s ≤ t.date))
  match end_date with
  | none => df
  | some e => df.filter (fun t => decide (t.date ≤ e))

/-- `CashBudgetAnalyzer.calculate_top_level_metrics`
(src/monarch_budgeting/analyzer.py lines 517-584).  An empty transaction
list short-circuits to all-zero metrics; otherwise the dataframe is date
filtered and the totals are computed:
income is the sum over positive-amount, non-CC-payment, non-excluded
transactions; `total_expenses` is `abs` of the sum over negative-amount
non-CC-payment transactions; `cc_expenses` restricts those to CC accounts;
`cash_expenses = total_expenses - cc_expenses`; `cc_payments` is `abs` of
the sum over CC-payment-flagged, non-CC-account, negative transactions. -/
def CashBudgetAnalyzer.calculate_top_level_metrics (A : CashBudgetAnalyzer)
    (start_date end_date : Option Int) : TopLevelMetrics :=
  if A.transactions.isEmpty then
    { total_income := 0
      total_expenses := 0
      cc_expenses := 0
      cash_expenses := 0
      cc_payments := 0
      true_cash_remaining := 0
      total_new_cc_spending := 0 }
  else
    let df := dateFilter start_date end_date A.transactions
    let income_df := df.filter
      (fun t => decide (0 < t.amount) && ! A.is_cc_payment t)
    let income_df2 := income_df.filter
      (fun t => ! isExcludedCategory t.category_name)
    let total_income := amountSum income_df2
    let expense_df := df.filter
      (fun t => decide (t.amount < 0) && ! A.is_cc_payment t)
    let total_expenses := |amountSum expense_df|
    let cc_expense_df := expense_df.filter (fun t => A.is_cc_account t)
    let cc_expenses := |amountSum cc_expense_df|
    let cash_expenses := total_expenses - cc_expenses
    let cc_payment_df := df.filter
      (fun t => A.is_cc_payment t && ! A.is_cc_account t &&
        decide (t.amount < 0))
    let cc_payments := |amountSum cc_payment_df|
    let true_cash_remaining := total_income - cash_expenses - cc_payments
    { total_income := total_income
      total_expenses := total_expenses
      cc_expenses := cc_expenses
      cash_expenses := cash_expenses
      cc_payments := cc_payments
      true_cash_remaining := true_cash_remaining
      total_new_cc_spending := cc_expenses }

/-! Concrete fixtures used by counterexamples and witnesses. -/

/-- A checking account. -/
def chkAccount : Account := { id := some ("chk"), typeName := some ("checking") }

/-- A credit-card account. -/
def ccAccount : Account := { id := some ("cc1"), typeName := some ("credit") }

/-- The Monarch system category for credit-card bill payments. -/
def payCategory : Category :=
  { id := ("pay"), name := ("Credit Card Payment"),
    system_category := some ("credit_card_payment") }

/-- An ordinary expense category, not flagged as CC payment. -/
def foodCategory : Category :=
  { id := ("food"), name := ("Food"), system_category := none }

/-- Fixture: one grocery charge on the credit card, with the CC-payment
category present in the category set. -/
def pairBaseAnalyzer : CashBudgetAnalyzer where
  transactions := [
    { amount := -30, date := 0,
      account := some { id := some ("cc1") },
      category := some { id := some ("food"), name := some ("Groceries") } }]
  accounts := [chkAccount, ccAccount]
  categories := [(("pay"), payCategory)]

/-- The debit leg of a CC-payment pair: -800 out of checking, in the
CC-payment category. -/
def payOutTx : Transaction :=
  { amount := -800, date := 0, account := some { id := some ("chk") },
    category :=
      some { id := some ("pay"), name := some ("Credit Card Payment") } }

/-- The credit leg of a CC-payment pair: +800 landing on the card, in the
CC-payment category. -/
def payInTx : Transaction :=
  { amount := 800, date := 0, account := some { id := some ("cc1") },
    category :=
      some { id := some ("pay"), name := some ("Credit Card Payment") } }

/-- Fixture: a transaction whose category is null, in a category set with
no CC-payment category. -/
def nullCatAnalyzer : CashBudgetAnalyzer where
  transactions := [
    { amount := -50, date := 0,
      account := some { id := some ("chk") }, category := none }]
  accounts := [chkAccount]
  categories := [(("food"), foodCategory)]

/-- Fixture: fully categorized transactions, no CC-payment category, no
credit accounts. -/
def categorizedAnalyzer : CashBudgetAnalyzer where
  transactions := [
    { amount := -1500, date := 0, account := some { id := some ("chk") },
      category := some { id := some ("rent"), name := some ("Rent") } },
    { amount := 5000, date := 0, account := some { id := some ("chk") },
      category := some { id := some ("sal"), name := some ("Salary") } }]
  accounts := [chkAccount]
  categories := [(("food"), foodCategory)]

/-- Fixture: no credit accounts, but a negative transaction in the
CC-payment category (a card bill paid from checking after the card account
was removed). -/
def noCreditPayAnalyzer : CashBudgetAnalyzer where
  transactions := [
    { amount := -100, date := 0,
      account := some { id := some ("chk") },
      category :=
        some { id := some ("pay"), name := some ("Credit Card Payment") } }]
  accounts := [chkAccount]
  categories := [(("pay"), payCategory)]

/-!
Concrete witnesses need the kernel to evaluate rational arithmetic, which
Batteries seals; re-open the arithmetic definitions for this development.
-/
attribute [local semireducible] Rat.add Rat.mul Rat.inv Rat.sub

/-! Helper lemmas about the spec-side recurrence and the loop. -/

theorem sub_min_self_eq_max (a c : ℚ) : a - min c a = max (a - c) 0 := by
  rcases le_total c a with h | h
  · rw [min_eq_left h, max_eq_left (by linarith)]
  · rw [min_eq_right h, max_eq_right (by linarith), sub_self]

theorem specBal_succ_max (d mp r : ℚ) (n : Nat) :
    specBal d mp r (n + 1) =
      max (specBal d mp r n + specBal d mp r n * r - mp) 0 := by
  show (fun b => (fun b1 => b1 - min mp b1) (b + b * r)) (specBal d mp r n) =
    max (specBal d mp r n + specBal d mp r n * r - mp) 0
  exact sub_min_self_eq_max _ _

theorem specBal_succ_nonneg (d mp r : ℚ) (n : Nat) :
    0 ≤ specBal d mp r (n + 1) := by
  rw [specBal_succ_max]; exact le_max_right _ _

theorem specBal_nonneg (d mp r : ℚ) (hd : 0 ≤ d) (n : Nat) :
    0 ≤ specBal d mp r n := by
  cases n with
  | zero => exact hd
  | succ n => exact specBal_succ_nonneg d mp r n

theorem specTimeline_succ (d mp r : ℚ) (n : Nat) :
    specTimeline d mp r (n + 1) =
      specTimeline d mp r n ++ [(n + 1, specBal d mp r (n + 1))] := by
  unfold specTimeline
  rw [List.range_succ, List.map_append, List.map_singleton]

theorem specTimeline_length (d mp r : ℚ) (n : Nat) :
    (specTimeline d mp r n).length = n + 1 := by
  simp [specTimeline]

/-- The loop of `project_payoff`, started after a fully processed month `n`,
computes exactly the spec recurrence's state at the stopping month. -/
theorem payoffGo_eq (d mp r : ℚ) (m n : Nat) :
    payoffGo mp r (specBal d mp r n) (specInterest d mp r n)
      (specPaid d mp r n) (specTimeline d mp r n) (List.range' (n + 1) m) =
      (specBal d mp r (stopMonth d mp r n m),
       specInterest d mp r (stopMonth d mp r n m),
       specPaid d mp r (stopMonth d mp r n m),
       specTimeline d mp r (stopMonth d mp r n m)) := by
  induction m generalizing n with
  | zero => simp [payoffGo, stopMonth]
  | succ m ih =>
    rw [List.range'_succ]
    have hb : specBal d mp r n + specBal d mp r n * r -
        min mp (specBal d mp r n + specBal d mp r n * r) =
        specBal d mp r (n + 1) := rfl
    have hi : specInterest d mp r n + specBal d mp r n * r =
        specInterest d mp r (n + 1) := rfl
    have hp : specPaid d mp r n +
        min mp (specBal d mp r n + specBal d mp r n * r) =
        specPaid d mp r (n + 1) := rfl
    simp only [payoffGo, hb, hi, hp, ← specTimeline_succ]
    simp only [stopMonth]
    split
    · rfl
    · exact ih (n + 1)

/-- `project_payoff` in closed form: every field is the spec recurrence's
value at the stopping month `stopMonth d mp (ar/12) 0 max_months`. -/
theorem project_payoff_eq (d mp ar : ℚ) (M : Nat) :
    project_payoff d mp ar M =
      { timeline := specTimeline d mp (ar / 12) (stopMonth d mp (ar / 12) 0 M)
        total_interest :=
          specInterest d mp (ar / 12) (stopMonth d mp (ar / 12) 0 M)
        total_paid := specPaid d mp (ar / 12) (stopMonth d mp (ar / 12) 0 M)
        months := stopMonth d mp (ar / 12) 0 M
        paid_off :=
          decide (specBal d mp (ar / 12) (stopMonth d mp (ar / 12) 0 M) ≤ 0) } := by
  have h0 : specTimeline d mp (ar / 12) 0 = [(0, d)] := rfl
  have h := payoffGo_eq d mp (ar / 12) M 0
  rw [h0] at h
  show PayoffResult.mk _ _ _ _ _ = _
  rw [show (0 : Nat) + 1 = 1 from rfl] at h
  rw [show specBal d mp (ar / 12) 0 = d from rfl,
    show specInterest d mp (ar / 12) 0 = 0 from rfl,
    show specPaid d mp (ar / 12) 0 = 0 from rfl] at h
  rw [h]
  simp [specTimeline_length]

theorem le_stopMonth (d mp r : ℚ) (m n : Nat) :
    n ≤ stopMonth d mp r n m := by
  induction m generalizing n with
  | zero => simp [stopMonth]
  | succ m ih =>
    simp only [stopMonth]
    split
    · exact Nat.le_succ n
    · exact Nat.le_trans (Nat.le_succ n) (ih (n + 1))

theorem stopMonth_le (d mp r : ℚ) (m n : Nat) :
    stopMonth d mp r n m ≤ n + m := by
  induction m generalizing n with
  | zero => simp [stopMonth]
  | succ m ih =>
    simp only [stopMonth]
    split
    · omega
    · have := ih (n + 1); omega

theorem stopMonth_pos (d mp r : ℚ) (m n : Nat)
    (k : Nat) (hk1 : n < k) (hk2 : k < stopMonth d mp r n m) :
    0 < specBal d mp r k := by
  induction m generalizing n with
  | zero => simp [stopMonth] at hk2; omega
  | succ m ih =>
    simp only [stopMonth] at hk2
    split at hk2
    · omega
    · rename_i h
      rcases Nat.lt_or_ge (n + 1) k with hk | hk
      · exact ih (n + 1) hk hk2
      · have hkeq : k = n + 1 := by omega
        subst hkeq
        exact lt_of_not_ge (fun hle => h hle)

theorem stopMonth_cases (d mp r : ℚ) (m n : Nat) :
    specBal d mp r (stopMonth d mp r n m) ≤ 0 ∨ stopMonth d mp r n m = n + m := by
  induction m generalizing n with
  | zero => right; simp [stopMonth]
  | succ m ih =>
    simp only [stopMonth]
    split
    · left; assumption
    · rcases ih (n + 1) with h | h
      · left; exact h
      · right; omega

theorem stopMonth_min (d mp r : ℚ) (m n k : Nat)
    (hk1 : n < k) (hk2 : k ≤ n + m) (hk : specBal d mp r k ≤ 0) :
    stopMonth d mp r n m ≤ k := by
  induction m generalizing n with
  | zero => omega
  | succ m ih =>
    simp only [stopMonth]
    split
    · omega
    · rename_i h
      have hkne : k ≠ n + 1 := by
        intro he; subst he; exact h hk
      exact ih (n + 1) (by omega) (by omega)

theorem stopMonth_hit (d mp r : ℚ) (m n k : Nat)
    (hk1 : n < k) (hk2 : k ≤ n + m) (hk : specBal d mp r k ≤ 0) :
    specBal d mp r (stopMonth d mp r n m) ≤ 0 := by
  rcases stopMonth_cases d mp r m n with h | h
  · exact h
  · have h1 := stopMonth_min d mp r m n k hk1 hk2 hk
    have : k = stopMonth d mp r n m := by omega
    rw [← this]; exact hk

theorem specTimeline_head (d mp r : ℚ) (n : Nat) :
    (specTimeline d mp r n).head? = some (0, d) := by
  unfold specTimeline
  rw [List.range_succ_eq_map]
  rfl

/-- C3: `project_payoff` implements exactly the stated recurrence with
`monthly_rate = annual_rate / 12`: the timeline starts with
`(0, total_debt)` and lists exactly the balances of the
interest-then-payment recurrence for months `0..months`; `total_interest`
and `total_paid` accumulate the per-month interest `balance * monthly_rate`
and the per-month payment `min(monthly_payment, balance)`; iteration stops
at the first month whose balance is `<= 0` (all strictly earlier months
past month 0 have positive balance), and runs at most `max_months`
months. -/
theorem c3_payoff_recurrence (d mp ar : ℚ) (M : Nat) :
    (project_payoff d mp ar M).timeline =
        specTimeline d mp (ar / 12) (project_payoff d mp ar M).months ∧
    (project_payoff d mp ar M).timeline.head? = some (0, d) ∧
    (project_payoff d mp ar M).total_interest =
        specInterest d mp (ar / 12) (project_payoff d mp ar M).months ∧
    (project_payoff d mp ar M).total_paid =
        specPaid d mp (ar / 12) (project_payoff d mp ar M).months ∧
    (project_payoff d mp ar M).months ≤ M ∧
    (∀ k, 1 ≤ k → k < (project_payoff d mp ar M).months →
        0 < specBal d mp (ar / 12) k) ∧
    ((project_payoff d mp ar M).paid_off = true ↔
        specBal d mp (ar / 12) (project_payoff d mp ar M).months ≤ 0) ∧
    ((project_payoff d mp ar M).paid_off = false →
        (project_payoff d mp ar M).months = M) := by
  rw [project_payoff_eq d mp ar M]
  dsimp only
  refine ⟨rfl, specTimeline_head _ _ _ _, rfl, rfl, ?_, ?_, ?_, ?_⟩
  · have := stopMonth_le d mp (ar / 12) M 0
    omega
  · intro k hk1 hk2
    exact stopMonth_pos d mp (ar / 12) M 0 k (by omega) hk2
  · exact decide_eq_true_iff
  · intro hfalse
    have hns : ¬ specBal d mp (ar / 12) (stopMonth d mp (ar / 12) 0 M) ≤ 0 := by
      simpa using hfalse
    rcases stopMonth_cases d mp (ar / 12) M 0 with h | h
    · exact absurd h hns
    · omega

/-- C5 counterexample: at `total_debt = 0` (which satisfies
`total_debt <= 0`) with `monthly_payment = 50`, `annual_rate = 0.12`,
`max_months = 240`, the projection reports `months_to_payoff = 1`, not `0`:
the loop body does run one iteration. -/
theorem c5_counterexample :
    (0 : ℚ) ≤ 0 ∧ (project_payoff 0 50 (12 / 100) 240).months ≠ 0 := by
  decide

/-- C5 amended: for `total_debt <= 0` (with `monthly_payment >= 0`,
`annual_rate >= 0`, `max_months >= 1`) `project_payoff` does not
short-circuit; it executes exactly one loop iteration and reports
`months_to_payoff = 1`, `paid_off = true`,
`total_interest = total_debt * (annual_rate / 12)` (zero when the debt is
zero, nonpositive in general) and `total_paid = total_debt + total_interest`.
(The caller `run_debt_payoff` separately returns before invoking the
projection when `total_debt <= 0`.) -/
theorem c5_amended_zero_debt (d mp ar : ℚ) (M : Nat)
    (hd : d ≤ 0) (hmp : 0 ≤ mp) (har : 0 ≤ ar) (hM : 1 ≤ M) :
    (project_payoff d mp ar M).months = 1 ∧
    (project_payoff d mp ar M).paid_off = true ∧
    (project_payoff d mp ar M).total_interest = d * (ar / 12) ∧
    (project_payoff d mp ar M).total_paid = d + d * (ar / 12) := by
  have hr : (0 : ℚ) ≤ ar / 12 := by positivity
  have hdr : d * (ar / 12) ≤ 0 := mul_nonpos_iff.mpr (Or.inr ⟨hd, hr⟩)
  have hb1 : d + d * (ar / 12) ≤ 0 := by linarith
  have hmin : min mp (d + d * (ar / 12)) = d + d * (ar / 12) :=
    min_eq_right (le_trans hb1 hmp)
  have hbal1 : specBal d mp (ar / 12) 1 = 0 := by
    show (fun b => (fun b1 => b1 - min mp b1) (b + b * (ar / 12)))
      (specBal d mp (ar / 12) 0) = 0
    show d + d * (ar / 12) - min mp (d + d * (ar / 12)) = 0
    rw [hmin, sub_self]
  obtain ⟨m, rfl⟩ : ∃ m, M = m + 1 := ⟨M - 1, by omega⟩
  have hstop : stopMonth d mp (ar / 12) 0 (m + 1) = 1 := by
    simp only [stopMonth]
    rw [if_pos (le_of_eq hbal1)]
  rw [project_payoff_eq]
  dsimp only
  refine ⟨hstop, ?_, ?_, ?_⟩
  · rw [hstop]
    exact decide_eq_true (le_of_eq hbal1)
  · rw [hstop]
    show specInterest d mp (ar / 12) 0 + specBal d mp (ar / 12) 0 * (ar / 12) =
      d * (ar / 12)
    show (0 : ℚ) + d * (ar / 12) = d * (ar / 12)
    rw [zero_add]
  · rw [hstop]
    show specPaid d mp (ar / 12) 0 +
        min mp (specBal d mp (ar / 12) 0 +
          specBal d mp (ar / 12) 0 * (ar / 12)) = d + d * (ar / 12)
    show (0 : ℚ) + min mp (d + d * (ar / 12)) = d + d * (ar / 12)
    rw [zero_add, hmin]

theorem c5_amended_zero_debt_witness :
    (0 : ℚ) ≤ 0 ∧ (0 : ℚ) ≤ 50 ∧ (0 : ℚ) ≤ 12 / 100 ∧ (1 : Nat) ≤ 240 ∧
      ((project_payoff 0 50 (12 / 100) 240).months = 1 ∧
       (project_payoff 0 50 (12 / 100) 240).paid_off = true ∧
       (project_payoff 0 50 (12 / 100) 240).total_interest = 0 * (12 / 100 / 12) ∧
       (project_payoff 0 50 (12 / 100) 240).total_paid = 0 + 0 * (12 / 100 / 12)) :=
  ⟨by decide, by decide, by decide, by decide,
    c5_amended_zero_debt 0 50 (12 / 100) 240 (by decide) (by decide)
      (by decide) (by decide)⟩

/-- C6: when the balance stays positive through all of months
`1..max_months` (for instance `total_debt = 100000`,
`monthly_payment = 1`, `annual_rate = 0.24`), `project_payoff` returns the
explicit not-paid-off state: `paid_off = false` and
`months_to_payoff = max_months`. -/
theorem c6_horizon_overrun (d mp ar : ℚ) (M : Nat) (hd : 0 < d)
    (h : ∀ k ∈ Finset.Icc 1 M, 0 < specBal d mp (ar / 12) k) :
    (project_payoff d mp ar M).paid_off = false ∧
    (project_payoff d mp ar M).months = M := by
  have hSle := stopMonth_le d mp (ar / 12) M 0
  have hSpos : 0 < specBal d mp (ar / 12) (stopMonth d mp (ar / 12) 0 M) := by
    rcases Nat.eq_zero_or_pos (stopMonth d mp (ar / 12) 0 M) with h0 | h0
    · rw [h0]; exact hd
    · exact h _ (Finset.mem_Icc.mpr ⟨h0, by omega⟩)
  rw [project_payoff_eq]
  dsimp only
  constructor
  · exact decide_eq_false (not_le.mpr hSpos)
  · rcases stopMonth_cases d mp (ar / 12) M 0 with hc | hc
    · exact absurd hc (not_le.mpr hSpos)
    · omega

theorem c6_horizon_overrun_witness :
    (0 : ℚ) < 100000 ∧
    (∀ k ∈ Finset.Icc 1 2, 0 < specBal 100000 1 (24 / 100 / 12) k) ∧
    ((project_payoff 100000 1 (24 / 100) 2).paid_off = false ∧
     (project_payoff 100000 1 (24 / 100) 2).months = 2) :=
  ⟨by decide, by decide,
    c6_horizon_overrun 100000 1 (24 / 100) 2 (by decide) (by decide)⟩

/-- C10: the running balance of the simulation always equals
`total_debt + (interest accrued so far) - (payments made so far)`: this
holds for the recurrence state at every month, hence for every
`(month, balance)` entry of the returned timeline; consequently whenever
the result has `paid_off = true`, `total_paid = total_debt + total_interest`
exactly. -/
theorem c10_balance_invariant (d mp ar : ℚ) (M : Nat)
    (hd : 0 ≤ d) (hmp : 0 ≤ mp) (har : 0 ≤ ar) :
    (∀ k, specBal d mp (ar / 12) k =
        d + specInterest d mp (ar / 12) k - specPaid d mp (ar / 12) k) ∧
    (∀ p ∈ (project_payoff d mp ar M).timeline,
        p.2 = d + specInterest d mp (ar / 12) p.1 -
          specPaid d mp (ar / 12) p.1) ∧
    ((project_payoff d mp ar M).paid_off = true →
        (project_payoff d mp ar M).total_paid =
          d + (project_payoff d mp ar M).total_interest) := by
  have key : ∀ k, specBal d mp (ar / 12) k =
      d + specInterest d mp (ar / 12) k - specPaid d mp (ar / 12) k := by
    intro k
    induction k with
    | zero =>
      show d = d + 0 - 0
      ring
    | succ n ih =>
      show specBal d mp (ar / 12) n + specBal d mp (ar / 12) n * (ar / 12) -
          min mp (specBal d mp (ar / 12) n +
            specBal d mp (ar / 12) n * (ar / 12)) =
        d + (specInterest d mp (ar / 12) n +
            specBal d mp (ar / 12) n * (ar / 12)) -
          (specPaid d mp (ar / 12) n +
            min mp (specBal d mp (ar / 12) n +
              specBal d mp (ar / 12) n * (ar / 12)))
      linarith
  refine ⟨key, ?_, ?_⟩
  · rw [project_payoff_eq]
    dsimp only
    intro p hp
    simp only [specTimeline, List.mem_map, List.mem_range] at hp
    obtain ⟨k, _, rfl⟩ := hp
    exact key k
  · rw [project_payoff_eq]
    dsimp only
    intro hoff
    have hle : specBal d mp (ar / 12) (stopMonth d mp (ar / 12) 0 M) ≤ 0 := by
      simpa using hoff
    have hge : 0 ≤ specBal d mp (ar / 12) (stopMonth d mp (ar / 12) 0 M) :=
      specBal_nonneg d mp (ar / 12) hd _
    have heq := key (stopMonth d mp (ar / 12) 0 M)
    show specPaid d mp (ar / 12) (stopMonth d mp (ar / 12) 0 M) =
      d + specInterest d mp (ar / 12) (stopMonth d mp (ar / 12) 0 M)
    linarith

theorem c10_balance_invariant_witness :
    (0 : ℚ) ≤ 100 ∧ (0 : ℚ) ≤ 60 ∧ (0 : ℚ) ≤ 12 / 100 ∧
    ((∀ k, specBal 100 60 (12 / 100 / 12) k =
        100 + specInterest 100 60 (12 / 100 / 12) k -
          specPaid 100 60 (12 / 100 / 12) k) ∧
     (∀ p ∈ (project_payoff 100 60 (12 / 100) 240).timeline,
        p.2 = 100 + specInterest 100 60 (12 / 100 / 12) p.1 -
          specPaid 100 60 (12 / 100 / 12) p.1) ∧
     ((project_payoff 100 60 (12 / 100) 240).paid_off = true →
        (project_payoff 100 60 (12 / 100) 240).total_paid =
          100 + (project_payoff 100 60 (12 / 100) 240).total_interest)) :=
  ⟨by decide, by decide, by decide,
    c10_balance_invariant 100 60 (12 / 100) 240 (by decide) (by decide)
      (by decide)⟩

theorem specBal_anti (d mp1 mp2 r : ℚ) (hr : 0 ≤ r) (hmp : mp1 ≤ mp2) :
    ∀ k, specBal d mp2 r k ≤ specBal d mp1 r k := by
  intro k
  induction k with
  | zero => exact le_refl d
  | succ n ih =>
    rw [specBal_succ_max, specBal_succ_max]
    refine max_le_max ?_ (le_refl 0)
    nlinarith [ih]

theorem stopMonth_lt (d mp r : ℚ) (m n : Nat) (hm : 0 < m) :
    n < stopMonth d mp r n m := by
  obtain ⟨m, rfl⟩ : ∃ k, m = k + 1 := ⟨m - 1, by omega⟩
  simp only [stopMonth]
  split
  · omega
  · have := le_stopMonth d mp r m (n + 1); omega

theorem stopMonth_anti (d mp1 mp2 r : ℚ) (hr : 0 ≤ r) (hmp : mp1 ≤ mp2)
    (m n : Nat) : stopMonth d mp2 r n m ≤ stopMonth d mp1 r n m := by
  rcases Nat.eq_zero_or_pos m with rfl | hm
  · simp [stopMonth]
  rcases stopMonth_cases d mp1 r m n with h | h
  · refine stopMonth_min d mp2 r m n (stopMonth d mp1 r n m)
      (stopMonth_lt d mp1 r m n hm) (stopMonth_le d mp1 r m n) ?_
    exact le_trans (specBal_anti d mp1 mp2 r hr hmp _) h
  · rw [h]; exact stopMonth_le d mp2 r m n

theorem specInterest_anti_mp (d mp1 mp2 r : ℚ) (hr : 0 ≤ r) (hmp : mp1 ≤ mp2) :
    ∀ k, specInterest d mp2 r k ≤ specInterest d mp1 r k := by
  intro k
  induction k with
  | zero => exact le_refl 0
  | succ n ih =>
    show specInterest d mp2 r n + specBal d mp2 r n * r ≤
      specInterest d mp1 r n + specBal d mp1 r n * r
    have := mul_le_mul_of_nonneg_right (specBal_anti d mp1 mp2 r hr hmp n) hr
    linarith

theorem specInterest_mono_months (d mp r : ℚ) (hr : 0 ≤ r) (hd : 0 ≤ d) :
    Monotone (specInterest d mp r) := by
  refine monotone_nat_of_le_succ ?_
  intro n
  show specInterest d mp r n ≤
    specInterest d mp r n + specBal d mp r n * r
  have := mul_nonneg (specBal_nonneg d mp r hd n) hr
  linarith

/-- C4 counterexample: the claim quantifies over every `annual_rate`, but
with a negative rate a larger payment can strictly increase
`total_interest`: at `total_debt = 100 > 0`, `annual_rate = -1.2`,
`max_months = 2`, payments `0 ≤ 1000` give total interest `-19` and `-10`
respectively. -/
theorem c4_counterexample :
    (0 : ℚ) < 100 ∧ (0 : ℚ) ≤ 1000 ∧
    ¬ ((project_payoff 100 1000 (-12 / 10) 2).total_interest ≤
        (project_payoff 100 0 (-12 / 10) 2).total_interest) := by
  decide

/-- C4 amended: for fixed `total_debt > 0`, `annual_rate >= 0` and
`max_months`, increasing `monthly_payment` never increases
`months_to_payoff` or `total_interest`. -/
theorem c4_payment_monotone (d mp1 mp2 ar : ℚ) (M : Nat)
    (hd : 0 < d) (har : 0 ≤ ar) (hmp : mp1 ≤ mp2) :
    (project_payoff d mp2 ar M).months ≤ (project_payoff d mp1 ar M).months ∧
    (project_payoff d mp2 ar M).total_interest ≤
      (project_payoff d mp1 ar M).total_interest := by
  have hr : (0 : ℚ) ≤ ar / 12 := by positivity
  rw [project_payoff_eq d mp1 ar M, project_payoff_eq d mp2 ar M]
  dsimp only
  have hstop := stopMonth_anti d mp1 mp2 (ar / 12) hr hmp M 0
  refine ⟨hstop, ?_⟩
  calc specInterest d mp2 (ar / 12) (stopMonth d mp2 (ar / 12) 0 M)
      ≤ specInterest d mp1 (ar / 12) (stopMonth d mp2 (ar / 12) 0 M) :=
        specInterest_anti_mp d mp1 mp2 (ar / 12) hr hmp _
    _ ≤ specInterest d mp1 (ar / 12) (stopMonth d mp1 (ar / 12) 0 M) :=
        specInterest_mono_months d mp1 (ar / 12) hr (le_of_lt hd) hstop

theorem c4_payment_monotone_witness :
    (0 : ℚ) < 100 ∧ (0 : ℚ) ≤ 24 / 100 ∧ (50 : ℚ) ≤ 60 ∧
    ((project_payoff 100 60 (24 / 100) 240).months ≤
        (project_payoff 100 50 (24 / 100) 240).months ∧
     (project_payoff 100 60 (24 / 100) 240).total_interest ≤
        (project_payoff 100 50 (24 / 100) 240).total_interest) :=
  ⟨by decide, by decide, by decide,
    c4_payment_monotone 100 50 60 (24 / 100) 240 (by decide) (by decide)
      (by decide)⟩

theorem specBal_le_debt (d mp r : ℚ) (hd : 0 < d) (hr : 0 ≤ r)
    (hpay : d * r < mp) : ∀ k, specBal d mp r k ≤ d := by
  intro k
  induction k with
  | zero => exact le_refl d
  | succ n ih =>
    rw [specBal_succ_max]
    refine max_le ?_ (le_of_lt hd)
    have := mul_le_mul_of_nonneg_right ih hr
    linarith

theorem specBal_decreasing (d mp r : ℚ) (hd : 0 < d) (hr : 0 ≤ r)
    (hpay : d * r < mp) (n : Nat) (hpos : 0 < specBal d mp r (n + 1)) :
    specBal d mp r (n + 1) ≤ specBal d mp r n - (mp - d * r) := by
  rw [specBal_succ_max] at hpos ⊢
  rcases le_or_lt (specBal d mp r n + specBal d mp r n * r - mp) 0 with h | h
  · rw [max_eq_right h] at hpos
    exact absurd hpos (lt_irrefl 0)
  · rw [max_eq_left (le_of_lt h)]
    have hb := specBal_le_debt d mp r hd hr hpay n
    have := mul_le_mul_of_nonneg_right hb hr
    linarith

theorem specBal_linear_bound (d mp r : ℚ) (hd : 0 < d) (hr : 0 ≤ r)
    (hpay : d * r < mp) (k : Nat)
    (hpos : ∀ j, 1 ≤ j → j ≤ k → 0 < specBal d mp r j) :
    specBal d mp r k ≤ d - k * (mp - d * r) := by
  induction k with
  | zero =>
    show d ≤ d - (0 : Nat) * (mp - d * r)
    push_cast
    linarith
  | succ n ih =>
    have ihn : specBal d mp r n ≤ d - n * (mp - d * r) :=
      ih (fun j hj1 hj2 => hpos j hj1 (by omega))
    have hdec := specBal_decreasing d mp r hd hr hpay n
      (hpos (n + 1) (by omega) (le_refl _))
    push_cast
    linarith

/-- C7: when the payment strictly exceeds the first month's interest
accrual `total_debt * (annual_rate / 12)` (with `total_debt > 0`,
`annual_rate >= 0`), the simulation converges: there is a bound `N` such
that for every horizon `max_months >= N` the projection reports
`paid_off = true` after at most `N` months. -/
theorem c7_termination (d mp ar : ℚ) (hd : 0 < d) (har : 0 ≤ ar)
    (hpay : d * (ar / 12) < mp) :
    ∃ N : Nat, ∀ M : Nat, N ≤ M →
      (project_payoff d mp ar M).paid_off = true ∧
      (project_payoff d mp ar M).months ≤ N := by
  have hr : (0 : ℚ) ≤ ar / 12 := by positivity
  set r : ℚ := ar / 12 with hrdef
  set δ : ℚ := mp - d * r with hδdef
  have hδ : 0 < δ := by rw [hδdef]; linarith
  refine ⟨(⌈d / δ⌉).toNat + 1, ?_⟩
  have hN : d / δ < ((⌈d / δ⌉).toNat + 1 : ℚ) := by
    have h1 : d / δ ≤ (⌈d / δ⌉ : ℚ) := Int.le_ceil _
    have h2 : (⌈d / δ⌉ : ℤ) ≤ ((⌈d / δ⌉).toNat : ℤ) := Int.self_le_toNat _
    have h3 : ((⌈d / δ⌉ : ℤ) : ℚ) ≤ (((⌈d / δ⌉).toNat : ℤ) : ℚ) :=
      Int.cast_le.mpr h2
    push_cast at h3 ⊢
    linarith
  have hhit : ∃ k, 1 ≤ k ∧ k ≤ (⌈d / δ⌉).toNat + 1 ∧ specBal d mp r k ≤ 0 := by
    by_contra hcon
    push_neg at hcon
    have hpos : ∀ j, 1 ≤ j → j ≤ (⌈d / δ⌉).toNat + 1 → 0 < specBal d mp r j :=
      fun j h1 h2 => lt_of_not_ge (fun hle => absurd hle
        (not_le.mpr (hcon j h1 h2)))
    have hbound := specBal_linear_bound d mp r hd hr hpay
      ((⌈d / δ⌉).toNat + 1) hpos
    have hp := hpos ((⌈d / δ⌉).toNat + 1) (by omega) (le_refl _)
    have hlt : (((⌈d / δ⌉).toNat + 1 : Nat) : ℚ) < d / δ := by
      rw [lt_div_iff₀ hδ]
      push_cast at hbound ⊢
      linarith
    push_cast at hlt
    linarith
  intro M hM
  obtain ⟨k, hk1, hkN, hk0⟩ := hhit
  rw [project_payoff_eq]
  dsimp only
  rw [← hrdef]
  constructor
  · exact decide_eq_true
      (stopMonth_hit d mp r M 0 k (by omega) (by omega) hk0)
  · exact le_trans (stopMonth_min d mp r M 0 k (by omega) (by omega) hk0) hkN

theorem c7_termination_witness :
    (0 : ℚ) < 100 ∧ (0 : ℚ) ≤ 0 ∧ (100 : ℚ) * (0 / 12) < 60 ∧
    ∃ N : Nat, ∀ M : Nat, N ≤ M →
      (project_payoff 100 60 0 M).paid_off = true ∧
      (project_payoff 100 60 0 M).months ≤ N :=
  ⟨by decide, by decide, by decide,
    c7_termination 100 60 0 (by decide) (by decide) (by decide)⟩

/-! Helper lemmas about the classifier. -/

theorem dateFilter_nil (s e : Option Int) : dateFilter s e [] = [] := by
  unfold dateFilter
  cases s <;> cases e <;> simp

theorem dateFilter_subset (s e : Option Int) (l : List Transaction)
    (t : Transaction) (ht : t ∈ dateFilter s e l) : t ∈ l := by
  unfold dateFilter at ht
  cases s <;> cases e <;> simp only [List.mem_filter] at ht <;> tauto

/-- `calculate_top_level_metrics` in closed form: it is
`TopLevelMetrics.calculate` applied to the four filtered sums (this also
covers the empty-transaction-set branch, whose zeros agree). -/
theorem metrics_eq (A : CashBudgetAnalyzer) (s e : Option Int) :
    A.calculate_top_level_metrics s e = TopLevelMetrics.calculate
      (amountSum (((dateFilter s e A.transactions).filter
          (fun t => decide (0 < t.amount) && ! A.is_cc_payment t)).filter
          (fun t => ! isExcludedCategory t.category_name)))
      |amountSum ((dateFilter s e A.transactions).filter
          (fun t => decide (t.amount < 0) && ! A.is_cc_payment t))|
      |amountSum (((dateFilter s e A.transactions).filter
          (fun t => decide (t.amount < 0) && ! A.is_cc_payment t)).filter
          (fun t => A.is_cc_account t))|
      |amountSum ((dateFilter s e A.transactions).filter
          (fun t => A.is_cc_payment t && ! A.is_cc_account t &&
            decide (t.amount < 0)))| := by
  unfold CashBudgetAnalyzer.calculate_top_level_metrics
  split
  · rename_i h
    rw [List.isEmpty_iff] at h
    rw [h, dateFilter_nil]
    show TopLevelMetrics.mk 0 0 0 0 0 0 0 = _
    unfold TopLevelMetrics.calculate
    simp [amountSum]
  · rfl

theorem calculate_expense_split (ti te ce cp : ℚ) :
    (TopLevelMetrics.calculate ti te ce cp).total_expenses =
      (TopLevelMetrics.calculate ti te ce cp).cc_expenses +
      (TopLevelMetrics.calculate ti te ce cp).cash_expenses := by
  show te = ce + (te - ce)
  ring

/-- C1: for every transaction set (and any date window), the metrics
returned by `calculate_top_level_metrics` satisfy
`total_expenses = cc_expenses + cash_expenses` exactly; the same identity
holds for every `TopLevelMetrics.calculate` result. -/
theorem c1_expense_invariant (A : CashBudgetAnalyzer) (s e : Option Int)
    (ti te ce cp : ℚ) :
    (A.calculate_top_level_metrics s e).total_expenses =
      (A.calculate_top_level_metrics s e).cc_expenses +
      (A.calculate_top_level_metrics s e).cash_expenses ∧
    (TopLevelMetrics.calculate ti te ce cp).total_expenses =
      (TopLevelMetrics.calculate ti te ce cp).cc_expenses +
      (TopLevelMetrics.calculate ti te ce cp).cash_expenses := by
  constructor
  · rw [metrics_eq]
    exact calculate_expense_split _ _ _ _
  · exact calculate_expense_split ti te ce cp

theorem amountSum_cons (t : Transaction) (l : List Transaction) :
    amountSum (t :: l) = t.amount + amountSum l := by
  simp [amountSum]

theorem amountSum_append (l1 l2 : List Transaction) :
    amountSum (l1 ++ l2) = amountSum l1 + amountSum l2 := by
  simp [amountSum]

theorem amountSum_nonpos (l : List Transaction)
    (h : ∀ t ∈ l, t.amount < 0) : amountSum l ≤ 0 := by
  induction l with
  | nil => simp [amountSum]
  | cons t l ih =>
    rw [amountSum_cons]
    have h1 := h t (List.mem_cons_self t l)
    have h2 := ih (fun x hx => h x (List.mem_cons_of_mem t hx))
    linarith

theorem abs_amountSum_neg (l : List Transaction)
    (h : ∀ t ∈ l, t.amount < 0) :
    |amountSum l| = (l.map (fun t => |t.amount|)).sum := by
  induction l with
  | nil => simp [amountSum]
  | cons t l ih =>
    have ht := h t (List.mem_cons_self t l)
    have hl : ∀ x ∈ l, x.amount < 0 :=
      fun x hx => h x (List.mem_cons_of_mem t hx)
    have hsl := amountSum_nonpos l hl
    rw [List.map_cons, List.sum_cons, ← ih hl, amountSum_cons,
      abs_of_nonpos (by linarith), abs_of_nonpos (le_of_lt ht),
      abs_of_nonpos hsl]
    ring

theorem is_cc_payment_ext (A : CashBudgetAnalyzer) (txs : List Transaction)
    (t : Transaction) :
    ({ A with transactions := txs } : CashBudgetAnalyzer).is_cc_payment t =
      A.is_cc_payment t := rfl

theorem is_cc_account_ext (A : CashBudgetAnalyzer) (txs : List Transaction)
    (t : Transaction) :
    ({ A with transactions := txs } : CashBudgetAnalyzer).is_cc_account t =
      A.is_cc_account t := rfl

/-- C2: `cc_payments` is the sum of the absolute amounts over exactly the
transactions flagged `is_cc_payment` with `is_cc_account = false` and
negative amount; and adding a CC-payment pair of size `X` (debit leg `-X`
on a non-CC account, credit leg `+X`, both in the CC-payment category)
increases `cc_payments` by exactly `X` while leaving `total_expenses`
unchanged. -/
theorem c2_cc_payment_outflow (A : CashBudgetAnalyzer) (t1 t2 : Transaction)
    (X : ℚ) (hX : 0 < X) (h1a : t1.amount = -X)
    (h1p : A.is_cc_payment t1 = true) (h1c : A.is_cc_account t1 = false)
    (h2a : t2.amount = X) (h2p : A.is_cc_payment t2 = true) :
    (∀ (B : CashBudgetAnalyzer) (s e : Option Int),
      (B.calculate_top_level_metrics s e).cc_payments =
        (((dateFilter s e B.transactions).filter
            (fun t => B.is_cc_payment t && ! B.is_cc_account t &&
              decide (t.amount < 0))).map (fun t => |t.amount|)).sum) ∧
    (∀ (B : CashBudgetAnalyzer) (s e : Option Int),
      (B.calculate_top_level_metrics s e).total_expenses =
        |amountSum ((dateFilter s e B.transactions).filter
            (fun t => decide (t.amount < 0) && ! B.is_cc_payment t))|) ∧
    (({ A with transactions := A.transactions ++ [t1, t2] } :
        CashBudgetAnalyzer).calculate_top_level_metrics none
        none).cc_payments =
      (A.calculate_top_level_metrics none none).cc_payments + X ∧
    (({ A with transactions := A.transactions ++ [t1, t2] } :
        CashBudgetAnalyzer).calculate_top_level_metrics none
        none).total_expenses =
      (A.calculate_top_level_metrics none none).total_expenses := by
  have habs : ∀ (B : CashBudgetAnalyzer) (s e : Option Int),
      (B.calculate_top_level_metrics s e).cc_payments =
        (((dateFilter s e B.transactions).filter
            (fun t => B.is_cc_payment t && ! B.is_cc_account t &&
              decide (t.amount < 0))).map (fun t => |t.amount|)).sum := by
    intro B s e
    rw [metrics_eq]
    refine abs_amountSum_neg _ ?_
    intro t ht
    rw [List.mem_filter, Bool.and_eq_true, Bool.and_eq_true] at ht
    exact of_decide_eq_true ht.2.2
  have hexp : ∀ (B : CashBudgetAnalyzer) (s e : Option Int),
      (B.calculate_top_level_metrics s e).total_expenses =
        |amountSum ((dateFilter s e B.transactions).filter
            (fun t => decide (t.amount < 0) && ! B.is_cc_payment t))| := by
    intro B s e
    rw [metrics_eq]
    rfl
  refine ⟨habs, hexp, ?_, ?_⟩
  · rw [metrics_eq, metrics_eq]
    show |amountSum (((A.transactions ++ [t1, t2]).filter
        (fun t => A.is_cc_payment t && ! A.is_cc_account t &&
          decide (t.amount < 0))))| =
      |amountSum (A.transactions.filter
        (fun t => A.is_cc_payment t && ! A.is_cc_account t &&
          decide (t.amount < 0)))| + X
    rw [List.filter_append]
    have hpair : [t1, t2].filter
        (fun t => A.is_cc_payment t && ! A.is_cc_account t &&
          decide (t.amount < 0)) = [t1] := by
      have hd1 : decide (t1.amount < 0) = true :=
        decide_eq_true (by rw [h1a]; linarith)
      have hd2 : decide (t2.amount < 0) = false := by
        rw [decide_eq_false_iff_not, h2a]
        linarith
      simp [List.filter, h1p, h1c, hd1, hd2]
    rw [hpair, amountSum_append]
    have hneg : ∀ t ∈ A.transactions.filter
        (fun t => A.is_cc_payment t && ! A.is_cc_account t &&
          decide (t.amount < 0)), t.amount < 0 := by
      intro t ht
      rw [List.mem_filter, Bool.and_eq_true, Bool.and_eq_true] at ht
      exact of_decide_eq_true ht.2.2
    have hsum := amountSum_nonpos _ hneg
    have hone : amountSum [t1] = -X := by
      rw [amountSum_cons, h1a]
      show -X + amountSum [] = -X
      simp [amountSum]
    rw [hone, abs_of_nonpos (by linarith), abs_of_nonpos hsum]
    ring
  · rw [metrics_eq, metrics_eq]
    show |amountSum ((A.transactions ++ [t1, t2]).filter
        (fun t => decide (t.amount < 0) && ! A.is_cc_payment t))| =
      |amountSum (A.transactions.filter
        (fun t => decide (t.amount < 0) && ! A.is_cc_payment t))|
    rw [List.filter_append]
    have hpair : [t1, t2].filter
        (fun t => decide (t.amount < 0) && ! A.is_cc_payment t) = [] := by
      simp [List.filter, h1p, h2p]
    rw [hpair, List.append_nil]

theorem c2_cc_payment_outflow_witness :
    (0 : ℚ) < 800 ∧ payOutTx.amount = -800 ∧
    pairBaseAnalyzer.is_cc_payment payOutTx = true ∧
    pairBaseAnalyzer.is_cc_account payOutTx = false ∧
    payInTx.amount = 800 ∧ pairBaseAnalyzer.is_cc_payment payInTx = true ∧
    ((∀ (B : CashBudgetAnalyzer) (s e : Option Int),
      (B.calculate_top_level_metrics s e).cc_payments =
        (((dateFilter s e B.transactions).filter
            (fun t => B.is_cc_payment t && ! B.is_cc_account t &&
              decide (t.amount < 0))).map (fun t => |t.amount|)).sum) ∧
     (∀ (B : CashBudgetAnalyzer) (s e : Option Int),
      (B.calculate_top_level_metrics s e).total_expenses =
        |amountSum ((dateFilter s e B.transactions).filter
            (fun t => decide (t.amount < 0) && ! B.is_cc_payment t))|) ∧
     (({ pairBaseAnalyzer with transactions :=
          pairBaseAnalyzer.transactions ++ [payOutTx, payInTx] } :
        CashBudgetAnalyzer).calculate_top_level_metrics none
        none).cc_payments =
      (pairBaseAnalyzer.calculate_top_level_metrics none none).cc_payments +
        800 ∧
     (({ pairBaseAnalyzer with transactions :=
          pairBaseAnalyzer.transactions ++ [payOutTx, payInTx] } :
        CashBudgetAnalyzer).calculate_top_level_metrics none
        none).total_expenses =
      (pairBaseAnalyzer.calculate_top_level_metrics none
        none).total_expenses) :=
  ⟨by decide, by decide, by decide, by decide, by decide, by decide,
    c2_cc_payment_outflow pairBaseAnalyzer payOutTx payInTx 800 (by decide)
      (by decide) (by decide) (by decide) (by decide) (by decide)⟩

theorem cc_payment_category_id_none (A : CashBudgetAnalyzer)
    (hcat : ∀ p ∈ A.categories, p.2.is_cc_payment = false) :
    A.cc_payment_category_id = none := by
  unfold CashBudgetAnalyzer.cc_payment_category_id
  have hfind : A.categories.find? (fun p => p.2.is_cc_payment) = none := by
    rw [List.find?_eq_none]
    intro p hp
    rw [hcat p hp]
    exact Bool.false_ne_true
  rw [hfind]
  rfl

theorem is_cc_payment_false_of_unflagged (A : CashBudgetAnalyzer)
    (hcat : ∀ p ∈ A.categories, p.2.is_cc_payment = false) :
    ∀ t, A.is_cc_payment t = false := by
  intro t
  unfold CashBudgetAnalyzer.is_cc_payment
  rw [cc_payment_category_id_none A hcat]

/-- C8: when no category in the supplied category set is flagged
`is_cc_payment`, the classifier does not fail and the CC-payment
special-casing is skipped entirely: `cc_payment_category_id` is `None`,
no transaction whatsoever is treated as a CC payment, `cc_payments = 0`,
and the expense and income totals equal the same sums without the
CC-payment exclusion (no transaction is excluded on CC-payment
grounds). -/
theorem c8_no_cc_category (A : CashBudgetAnalyzer) (s e : Option Int)
    (hcat : ∀ p ∈ A.categories, p.2.is_cc_payment = false) :
    A.cc_payment_category_id = none ∧
    (∀ t, A.is_cc_payment t = false) ∧
    (A.calculate_top_level_metrics s e).cc_payments = 0 ∧
    (A.calculate_top_level_metrics s e).total_expenses =
      |amountSum ((dateFilter s e A.transactions).filter
        (fun t => decide (t.amount < 0)))| ∧
    (A.calculate_top_level_metrics s e).total_income =
      amountSum (((dateFilter s e A.transactions).filter
        (fun t => decide (0 < t.amount))).filter
        (fun t => ! isExcludedCategory t.category_name)) := by
  have hflag := is_cc_payment_false_of_unflagged A hcat
  refine ⟨cc_payment_category_id_none A hcat, hflag, ?_, ?_, ?_⟩
  · rw [metrics_eq]
    show |amountSum ((dateFilter s e A.transactions).filter
      (fun t => A.is_cc_payment t && ! A.is_cc_account t &&
        decide (t.amount < 0)))| = 0
    rw [List.filter_eq_nil_iff.mpr]
    · show |amountSum []| = 0
      simp [amountSum]
    · intro t ht
      rw [hflag t]
      simp
  · rw [metrics_eq]
    show |amountSum ((dateFilter s e A.transactions).filter
      (fun t => decide (t.amount < 0) && ! A.is_cc_payment t))| = _
    rw [List.filter_congr]
    intro t ht
    rw [hflag t]
    simp
  · rw [metrics_eq]
    show amountSum (((dateFilter s e A.transactions).filter
      (fun t => decide (0 < t.amount) && ! A.is_cc_payment t)).filter
      (fun t => ! isExcludedCategory t.category_name)) = _
    have hfc : (dateFilter s e A.transactions).filter
        (fun t => decide (0 < t.amount) && ! A.is_cc_payment t) =
        (dateFilter s e A.transactions).filter
        (fun t => decide (0 < t.amount)) := by
      refine List.filter_congr ?_
      intro t ht
      rw [hflag t]
      simp
    rw [hfc]

theorem c8_no_cc_category_witness :
    (∀ p ∈ nullCatAnalyzer.categories, p.2.is_cc_payment = false) ∧
    (nullCatAnalyzer.cc_payment_category_id = none ∧
     (∀ t, nullCatAnalyzer.is_cc_payment t = false) ∧
     (nullCatAnalyzer.calculate_top_level_metrics none
        none).cc_payments = 0 ∧
     (nullCatAnalyzer.calculate_top_level_metrics none
        none).total_expenses =
       |amountSum ((dateFilter none none
         nullCatAnalyzer.transactions).filter
         (fun t => decide (t.amount < 0)))| ∧
     (nullCatAnalyzer.calculate_top_level_metrics none
        none).total_income =
       amountSum (((dateFilter none none
         nullCatAnalyzer.transactions).filter
         (fun t => decide (0 < t.amount))).filter
         (fun t => ! isExcludedCategory t.category_name))) :=
  ⟨by decide, c8_no_cc_category nullCatAnalyzer none none (by decide)⟩

/-- C9 counterexample: with no credit-type account but a negative
CC-payment-category transaction from checking, `cc_expenses = 0` holds but
`cc_payments = 100 ≠ 0`, so the claimed conjunction fails. -/
theorem c9_counterexample :
    (∀ a ∈ noCreditPayAnalyzer.accounts,
      ¬ a.typeName = some ("credit")) ∧
    ¬ ((noCreditPayAnalyzer.calculate_top_level_metrics none
        none).cc_expenses = 0 ∧
       (noCreditPayAnalyzer.calculate_top_level_metrics none
        none).cc_payments = 0) := by
  decide

/-- C9 amended: for every transaction set whose accounts include no
account of type 'credit', `calculate_top_level_metrics` returns
`cc_expenses = 0`; and `cc_payments = 0` holds as well provided no
transaction flagged as CC payment has negative amount — in particular
whenever no category is flagged `is_cc_payment` at all. -/
theorem c9_amended_no_credit (A : CashBudgetAnalyzer) (s e : Option Int)
    (h : ∀ a ∈ A.accounts, ¬ a.typeName = some ("credit")) :
    (A.calculate_top_level_metrics s e).cc_expenses = 0 ∧
    ((∀ t ∈ A.transactions,
        ¬ (A.is_cc_payment t = true ∧ t.amount < 0)) →
      (A.calculate_top_level_metrics s e).cc_payments = 0) ∧
    ((∀ p ∈ A.categories, p.2.is_cc_payment = false) →
      (A.calculate_top_level_metrics s e).cc_payments = 0) := by
  have hids : A.cc_account_ids = [] := by
    unfold CashBudgetAnalyzer.cc_account_ids
    rw [List.filter_eq_nil_iff.mpr, List.map_nil]
    intro a ha
    rw [Bool.not_eq_true, beq_eq_false_iff_ne]
    exact h a ha
  have hacc : ∀ t, A.is_cc_account t = false := by
    intro t
    unfold CashBudgetAnalyzer.is_cc_account
    rw [hids]
    rfl
  have hpay : (∀ t ∈ A.transactions,
      ¬ (A.is_cc_payment t = true ∧ t.amount < 0)) →
      (A.calculate_top_level_metrics s e).cc_payments = 0 := by
    intro hno
    rw [metrics_eq]
    show |amountSum ((dateFilter s e A.transactions).filter
      (fun t => A.is_cc_payment t && ! A.is_cc_account t &&
        decide (t.amount < 0)))| = 0
    rw [List.filter_eq_nil_iff.mpr]
    · show |amountSum []| = 0
      simp [amountSum]
    · intro t ht
      have hmem := dateFilter_subset s e A.transactions t ht
      have := hno t hmem
      rw [hacc t]
      simp only [Bool.not_false, Bool.and_true, Bool.and_eq_true,
        decide_eq_true_eq]
      tauto
  refine ⟨?_, hpay, ?_⟩
  · rw [metrics_eq]
    show |amountSum (((dateFilter s e A.transactions).filter
      (fun t => decide (t.amount < 0) && ! A.is_cc_payment t)).filter
      (fun t => A.is_cc_account t))| = 0
    rw [List.filter_eq_nil_iff.mpr]
    · show |amountSum []| = 0
      simp [amountSum]
    · intro t ht
      rw [hacc t]
      simp
  · intro hcat
    refine hpay ?_
    intro t ht hc
    rw [is_cc_payment_false_of_unflagged A hcat t] at hc
    exact Bool.false_ne_true hc.1

theorem c9_amended_no_credit_witness :
    (∀ a ∈ categorizedAnalyzer.accounts,
      ¬ a.typeName = some ("credit")) ∧
    ((categorizedAnalyzer.calculate_top_level_metrics none
        none).cc_expenses = 0 ∧
     ((∀ t ∈ categorizedAnalyzer.transactions,
        ¬ (categorizedAnalyzer.is_cc_payment t = true ∧ t.amount < 0)) →
      (categorizedAnalyzer.calculate_top_level_metrics none
        none).cc_payments = 0) ∧
     ((∀ p ∈ categorizedAnalyzer.categories, p.2.is_cc_payment = false) →
      (categorizedAnalyzer.calculate_top_level_metrics none
        none).cc_payments = 0)) :=
  ⟨by decide, c9_amended_no_credit categorizedAnalyzer none none
    (by decide)⟩

end Monarch
